import Mathlib

/-!
Verification of the SatWatch route-hazard analyzer (`app.py`).

The development embeds the hazard-correlation core of the program:
the haversine distance primitive, the local advisory matcher, the GDACS
disaster-alert correlator, the weather sampler/classifier, the hazard
aggregator and the satellite-imagery URL selector.

Geographic coordinates carried by data records are modelled as rational
pairs; the trigonometric distance computation is modelled over the reals.
Fallible external interactions (feed download/parse, per-point weather
lookup) are modelled as `Except` values handed to the functions, mirroring
the try/except structure of the code.
-/

/-- A geographic point: (latitude, longitude) in decimal degrees. -/
abbrev GeoPoint := ℚ × ℚ

/-- The unit of output of every matcher: mirrors the Python dict
`\x7b'coords': ..., 'details': ..., 'location_name': ...\x7d`. -/
structure HazardRecord where
  coords : GeoPoint
  details : String
  location_name : String
deriving DecidableEq, Repr

/-- Is `needle` a leading segment of `hay`? (used to model Python `in`). -/
def charsLead : List Char → List Char → Bool
  | [], _ => true
  | _ :: _, [] => false
  | a :: as, b :: bs => a == b && charsLead as bs

/-- Does `hay` contain `needle` as a contiguous segment? -/
def charsHas (needle : List Char) : List Char → Bool
  | [] => needle.isEmpty
  | c :: rest => charsLead needle (c :: rest) || charsHas needle rest

/-- Python `needle in hay` on strings: contiguous substring containment. -/
def strIn (needle hay : String) : Bool :=
  charsHas needle.toList hay.toList

/-- Python `str.lower()` (ASCII range, which covers every registry key). -/
def pyLower (s : String) : String :=
  ⟨s.data.map Char.toLower⟩

/-- The static registry `MOCK_LOCAL_ADVISORIES`, as an insertion-ordered
association list (Python dicts preserve insertion order). -/
def MOCK_LOCAL_ADVISORIES : List (String × HazardRecord) :=
  [ ("Kufri",
     { coords := (31.1005, 77.2658),
       details := "Heavy Snowfall Warning: Kufri and surrounding areas experience heavy snow, leading to frequent road blockages. Check road status before travel. Only 4x4 vehicles with snow chains are recommended.",
       location_name := "Kufri, Himachal Pradesh" }),
    ("Shimla",
     { coords := (31.1048, 77.1734),
       details := "Road Advisory: Heavy snowfall in winter. Main roads can be treacherous. During monsoon, risk of landslides is high. Drive with caution.",
       location_name := "Shimla, Himachal Pradesh" }),
    ("Himachal Pradesh",
     { coords := (31.7104, 76.9325),
       details := "General Advisory for Himachal: The state is prone to landslides and flash floods during monsoon (July-Sept) and heavy snowfall in winter (Dec-Feb). Always check local weather and road conditions.",
       location_name := "Himachal Pradesh" }),
    ("Jammu",
     { coords := (32.7266, 74.8570),
       details := "Landslide & Security Advisory: The Jammu-Srinagar highway (NH44) is prone to frequent closures due to landslides, especially near Ramban. Follow all security advisories and travel only during daylight hours.",
       location_name := "Jammu Region, J&K" }),
    ("Ladakh",
     { coords := (34.1526, 77.5771),
       details := "High-Altitude & Weather Advisory: Risk of acute mountain sickness. Roads like Zoji La & Rohtang Pass are closed in winter. Expect extreme cold and limited facilities. Acclimatize properly before travel.",
       location_name := "Ladakh Union Territory" }),
    ("Kedarnath",
     { coords := (30.7352, 79.0669),
       details := "Mountain Route Advisory: Seasonal road closures and heavy landslides reported. Travel is **NOT ADVISED** at this time.",
       location_name := "Rudraprayag district, Uttarakhand" }),
    ("Joshimath",
     { coords := (30.5656, 79.5645),
       details := "Severe Land Subsidence Warning: This area is experiencing significant land sinking. Many structures are unsafe. Non-essential travel is strongly discouraged.",
       location_name := "Joshimath, Chamoli, Uttarakhand" }),
    ("Assam",
     { coords := (26.1445, 91.7362),
       details := "Monsoon Flood Alert: The Brahmaputra river regularly causes widespread flooding during the monsoon season (June-September). Check current conditions before travel.",
       location_name := "Assam River Plains" }),
    ("Bihar",
     { coords := (25.5941, 85.1376),
       details := "Severe Flood Risk: The Kosi and Ganges rivers can cause extensive and rapid flooding during monsoon season. Travel to northern districts may be disrupted.",
       location_name := "Northern Bihar" }),
    ("Kerala",
     { coords := (10.8505, 76.2711),
       details := "Flood Warning: Monsoon season has caused local flooding. Some low-lying areas are impassable. Check local reports.",
       location_name := "Kerala, India" }),
    ("Mumbai",
     { coords := (19.0760, 72.8777),
       details := "Cyclone Advisory: Heavy winds and storm surge expected. Travel to coastal areas is not advised.",
       location_name := "Mumbai Coastline" }),
    ("Odisha",
     { coords := (19.8135, 85.8312),
       details := "Cyclone Alert Zone: This coastal region is highly susceptible to cyclones, especially from May-June and October-November. Monitor weather reports for cyclone warnings.",
       location_name := "Puri, Odisha Coast" }),
    ("Sundarbans",
     { coords := (21.9497, 88.8533),
       details := "Storm Surge & Cyclone Warning: This low-lying delta region is extremely vulnerable to storm surges from cyclones in the Bay of Bengal. Follow all official advisories.",
       location_name := "Sundarbans Delta, West Bengal" }) ]

/-- The loop body of `fetch_local_advisories`: walk the registry in order,
append the first advisory whose key (lowercased) occurs inside the
lowercased destination name, then break. -/
def matchAdvisories : List (String × HazardRecord) → String → List HazardRecord
  | [], _ => []
  | (key, adv) :: rest, name =>
    if strIn (pyLower key) (pyLower name) then [adv]
    else matchAdvisories rest name

/-- `fetch_local_advisories(end_loc_name)` from `app.py`. -/
def fetch_local_advisories (end_loc_name : String) : List HazardRecord :=
  matchAdvisories MOCK_LOCAL_ADVISORIES end_loc_name

/-- One element of the JSON `weather` array: integer condition code `id`
and a `description` string. -/
structure WeatherCond where
  id : Int
  description : String
deriving DecidableEq, Repr

/-- The payload the weather provider returns for one point: the `weather`
array (missing key modelled as the empty list, which Python also treats as
falsy) and the optional `name` field. -/
structure WeatherData where
  weather : List WeatherCond
  name : Option String
deriving DecidableEq, Repr

/-- The body of the per-point loop of `fetch_weather_alerts`: a failed
lookup (caught exception) contributes nothing; a successful one
contributes one record iff the `weather` array is non-empty and its first
condition code lies in `[200, 800)`. -/
def weatherPoint (pt : GeoPoint) (res : Except String WeatherData) : List HazardRecord :=
  match res with
  | Except.error _ => []
  | Except.ok data =>
    match data.weather with
    | [] => []
    | w :: _ =>
      if 200 ≤ w.id ∧ w.id < 800 then
        [{ coords := pt,
           details := "Weather Alert: " ++ w.description,
           location_name := data.name.getD "Along your route" }]
      else []

/-- `points_to_check` from `fetch_weather_alerts`:
`[route_points[0], route_points[len(route_points)//2], route_points[-1]]`.
The default is irrelevant for routes of length ≥ 1, the documented domain. -/
def points_to_check (route_points : List GeoPoint) : List GeoPoint :=
  [route_points.getD 0 (0, 0),
   route_points.getD (route_points.length / 2) (0, 0),
   route_points.getD (route_points.length - 1) (0, 0)]

/-- `fetch_weather_alerts(route_points)` from `app.py`, with the ambient
API key and the per-point lookup (network call result) passed explicitly.
A missing or empty key (both falsy in Python) short-circuits to `[]`. -/
def fetch_weather_alerts (apiKey : Option String)
    (lookup : GeoPoint → Except String WeatherData)
    (route_points : List GeoPoint) : List HazardRecord :=
  match apiKey with
  | none => []
  | some k =>
    if k = "" then []
    else (points_to_check route_points).flatMap fun pt => weatherPoint pt (lookup pt)

/-- The VIIRS thermal-anomalies tile-URL template of `get_satellite_url`. -/
def viirs_url (date_today : String) : String :=
  "https://gibs.earthdata.nasa.gov/wmts/epsg4326/best/VIIRS_SNPP_Thermal_Anomalies_375m_All/default/"
    ++ date_today ++ "/250m/\x7bz\x7d/\x7by\x7d/\x7bx\x7d.png"

/-- The MODIS TrueColor tile-URL template of `get_satellite_url`. -/
def modis_url (date_today : String) : String :=
  "https://gibs.earthdata.nasa.gov/wmts/epsg4326/best/MODIS_Terra_CorrectedReflectance_TrueColor/default/"
    ++ date_today ++ "/250m/\x7bz\x7d/\x7by\x7d/\x7bx\x7d.jpg"

/-- `get_satellite_url(hazard_type=None)` from `app.py`; the current date
is passed explicitly. `hazard_type and (...)` makes both `None` and the
empty string fall through to the MODIS default. -/
def get_satellite_url (date_today : String) (hazard_type : Option String) : String :=
  if (match hazard_type with
      | none => false
      | some s => !(s == "") && (strIn "fire" (pyLower s) || strIn "wildfire" (pyLower s))) then
    viirs_url date_today
  else
    modis_url date_today

/-- How `analyze_route` invokes `get_satellite_url`:
`get_satellite_url(all_hazards[0]['details'] if all_hazards else None)`. -/
def selectSatelliteUrl (date_today : String) (all_hazards : List HazardRecord) : String :=
  get_satellite_url date_today (all_hazards.head?.map HazardRecord.details)

/-- `all_hazards = local_hazards + gdacs_hazards + weather_hazards` in
`analyze_route`. -/
def aggregate (localH disasterH weatherH : List HazardRecord) : List HazardRecord :=
  localH ++ disasterH ++ weatherH

/-- Python `math.radians`: degrees to radians. -/
noncomputable def radians (x : ℝ) : ℝ := x * (Real.pi / 180)

/-- Python `math.atan2(y, x)`: the two-argument arctangent, by the usual
piecewise definition (quadrant-correct, `atan2 0 0 = 0`). -/
noncomputable def atan2 (y x : ℝ) : ℝ :=
  if 0 < x then Real.arctan (y / x)
  else if x < 0 then
    if 0 ≤ y then Real.arctan (y / x) + Real.pi
    else Real.arctan (y / x) - Real.pi
  else
    if 0 < y then Real.pi / 2
    else if y < 0 then -(Real.pi / 2)
    else 0

/-- The intermediate `a` of `haversine`:
`sin(dlat/2)**2 + cos(radians(lat1)) * cos(radians(lat2)) * sin(dlon/2)**2`. -/
noncomputable def haversA (lat1 lon1 lat2 lon2 : ℝ) : ℝ :=
  Real.sin (radians (lat2 - lat1) / 2) ^ 2 +
    Real.cos (radians lat1) * Real.cos (radians lat2) *
      Real.sin (radians (lon2 - lon1) / 2) ^ 2

/-- `haversine(lat1, lon1, lat2, lon2)` from `app.py`: Earth radius
`R = 6371` km times `c = 2 * atan2(sqrt(a), sqrt(1 - a))`. -/
noncomputable def haversine (lat1 lon1 lat2 lon2 : ℝ) : ℝ :=
  6371 * (2 * atan2 (Real.sqrt (haversA lat1 lon1 lat2 lon2))
                    (Real.sqrt (1 - haversA lat1 lon1 lat2 lon2)))

/-- One GDACS feed item after XML parsing: its `title` text and the
optional `georss:point` coordinates. -/
structure FeedItem where
  title : String
  point : Option GeoPoint
deriving DecidableEq, Repr

open Classical in
/-- The inner loop of `fetch_and_check_gdacs_alerts`: walk the route
points in order; at the first one strictly within 50 km of the item,
append one record and break. -/
noncomputable def scanRoute (lat lon : ℚ) (title : String) :
    List GeoPoint → List HazardRecord
  | [] => []
  | rp :: rest =>
    if haversine (rp.1 : ℝ) (rp.2 : ℝ) (lat : ℝ) (lon : ℝ) < 50 then
      [{ coords := (lat, lon), details := title,
         location_name := "Near your route" }]
    else scanRoute lat lon title rest

/-- The outer loop of `fetch_and_check_gdacs_alerts`: items lacking a
`georss:point` are skipped; otherwise the inner route scan runs. -/
noncomputable def processItems (route_points : List GeoPoint) :
    List FeedItem → List HazardRecord
  | [] => []
  | item :: rest =>
    (match item.point with
     | none => []
     | some (lat, lon) => scanRoute lat lon item.title route_points)
      ++ processItems route_points rest

/-- `fetch_and_check_gdacs_alerts(route_points)` from `app.py`, with the
feed download/parse outcome passed explicitly: any exception on that path
is caught and yields the empty list. -/
noncomputable def fetch_and_check_gdacs_alerts (route_points : List GeoPoint)
    (feed : Except String (List FeedItem)) : List HazardRecord :=
  match feed with
  | Except.error _ => []
  | Except.ok items => processItems route_points items

open Classical in
/-- Modelled from the spec (§4.3), for comparison with the code: for each
feed entry having a point, emit one record iff some route point lies
strictly within 50 km, output in feed-entry order. -/
noncomputable def correlateDisasterAlertsSpec (route_points : List GeoPoint)
    (entries : List FeedItem) : List HazardRecord :=
  entries.flatMap fun e =>
    match e.point with
    | none => []
    | some (lat, lon) =>
      if ∃ rp ∈ route_points, haversine (rp.1 : ℝ) (rp.2 : ℝ) (lat : ℝ) (lon : ℝ) < 50 then
        [{ coords := (lat, lon), details := e.title,
           location_name := "Near your route" }]
      else []

/-! ## Helper lemmas -/

lemma sinSq_sub_comm (x y : ℝ) :
    Real.sin (radians (x - y) / 2) ^ 2 = Real.sin (radians (y - x) / 2) ^ 2 := by
  rw [show radians (x - y) / 2 = -(radians (y - x) / 2) by unfold radians; ring,
    Real.sin_neg, neg_sq]

lemma haversA_self (lat lon : ℝ) : haversA lat lon lat lon = 0 := by
  unfold haversA radians
  simp

lemma haversA_symm (lat1 lon1 lat2 lon2 : ℝ) :
    haversA lat1 lon1 lat2 lon2 = haversA lat2 lon2 lat1 lon1 := by
  unfold haversA
  rw [sinSq_sub_comm lat2 lat1, sinSq_sub_comm lon2 lon1]
  ring

lemma atan2_zero_one : atan2 0 1 = 0 := by
  unfold atan2
  rw [if_pos one_pos]
  simp [Real.arctan_zero]

lemma atan2_one_zero : atan2 1 0 = Real.pi / 2 := by
  unfold atan2
  norm_num

lemma atan2_nonneg (y x : ℝ) (hy : 0 ≤ y) : 0 ≤ atan2 y x := by
  unfold atan2
  rcases lt_trichotomy x 0 with hx | hx | hx
  · rw [if_neg (by linarith), if_pos hx, if_pos hy]
    have := Real.neg_pi_div_two_lt_arctan (y / x)
    have := Real.pi_pos
    linarith
  · subst hx
    rw [if_neg (lt_irrefl 0), if_neg (lt_irrefl 0)]
    rcases eq_or_lt_of_le hy with hy0 | hy0
    · rw [if_neg (by linarith), if_neg (by linarith)]
    · rw [if_pos hy0]
      have := Real.pi_pos
      linarith
  · rw [if_pos hx]
    rw [← Real.arctan_zero]
    exact Real.arctan_strictMono.monotone (div_nonneg hy hx.le)

lemma haversA_antipodal : haversA 0 0 0 180 = 1 := by
  unfold haversA
  rw [show radians (180 - 0) = Real.pi by unfold radians; ring]
  norm_num [Real.sin_pi_div_two, show radians (0 - 0) = 0 by unfold radians; ring,
    show radians 0 = 0 by unfold radians; ring]

lemma haversine_antipodal : haversine 0 0 0 180 = 6371 * Real.pi := by
  unfold haversine
  rw [haversA_antipodal]
  norm_num [atan2_one_zero]
  ring

open Classical in
lemma scanRoute_eq (lat lon : ℚ) (title : String) (route : List GeoPoint) :
    scanRoute lat lon title route =
      if ∃ rp ∈ route, haversine (rp.1 : ℝ) (rp.2 : ℝ) (lat : ℝ) (lon : ℝ) < 50 then
        [{ coords := (lat, lon), details := title, location_name := "Near your route" }]
      else [] := by
  induction route with
  | nil => simp [scanRoute]
  | cons rp rest ih =>
    unfold scanRoute
    by_cases h : haversine (rp.1 : ℝ) (rp.2 : ℝ) (lat : ℝ) (lon : ℝ) < 50
    · rw [if_pos h, if_pos ⟨rp, List.mem_cons_self rp rest, h⟩]
    · rw [if_neg h, ih]
      by_cases h2 : ∃ p ∈ rest, haversine (p.1 : ℝ) (p.2 : ℝ) (lat : ℝ) (lon : ℝ) < 50
      · obtain ⟨p, hp, hlt⟩ := h2
        rw [if_pos ⟨p, hp, hlt⟩, if_pos ⟨p, List.mem_cons_of_mem rp hp, hlt⟩]
      · rw [if_neg h2, if_neg]
        rintro ⟨p, hp, hlt⟩
        rcases List.mem_cons.mp hp with rfl | hp2
        · exact h hlt
        · exact h2 ⟨p, hp2, hlt⟩

lemma processItems_append (route : List GeoPoint) (a b : List FeedItem) :
    processItems route (a ++ b) = processItems route a ++ processItems route b := by
  induction a with
  | nil => simp [processItems]
  | cons x xs ih => simp [processItems, ih]

lemma matchAdvisories_eq_find (reg : List (String × HazardRecord)) (name : String) :
    matchAdvisories reg name =
      match reg.find? (fun kv => strIn (pyLower kv.1) (pyLower name)) with
      | some kv => [kv.2]
      | none => [] := by
  induction reg with
  | nil => rfl
  | cons kv rest ih =>
    rcases kv with ⟨key, adv⟩
    unfold matchAdvisories
    cases hb : strIn (pyLower key) (pyLower name) with
    | true => simp [List.find?, hb]
    | false => simp [List.find?, hb, ih]

lemma getD_eq_get (l : List GeoPoint) (n : ℕ) (d : GeoPoint) (h : n < l.length) :
    l.getD n d = l.get ⟨n, h⟩ := by
  simp [List.getD_eq_getElem?_getD, List.getElem?_eq_getElem h, List.get_eq_getElem]

lemma viirs_ne_modis (d : String) : viirs_url d ≠ modis_url d := by
  intro h
  have h2 := congrArg String.length h
  rw [viirs_url, modis_url, String.length_append, String.length_append,
    String.length_append, String.length_append] at h2
  have hv : ("https://gibs.earthdata.nasa.gov/wmts/epsg4326/best/VIIRS_SNPP_Thermal_Anomalies_375m_All/default/" : String).length = 97 := rfl
  have hm : ("https://gibs.earthdata.nasa.gov/wmts/epsg4326/best/MODIS_Terra_CorrectedReflectance_TrueColor/default/" : String).length = 102 := rfl
  have hp : ("/250m/\x7bz\x7d/\x7by\x7d/\x7bx\x7d.png" : String).length = 21 := rfl
  have hj : ("/250m/\x7bz\x7d/\x7by\x7d/\x7bx\x7d.jpg" : String).length = 21 := rfl
  rw [hv, hm, hp, hj] at h2
  omega

/-! ## Claims -/

/-- Claim C1: the aggregate is the concatenation local ++ disaster ++ weather,
preserving each list's internal order with no re-sorting; in particular,
for single records L, D, W, aggregate [L] [D] [W] = [L, D, W]. -/
theorem claim_C1 (localH disasterH weatherH : List HazardRecord) :
    aggregate localH disasterH weatherH = localH ++ disasterH ++ weatherH
    ∧ ∀ L D W : HazardRecord, aggregate [L] [D] [W] = [L, D, W] :=
  ⟨rfl, fun _ _ _ => rfl⟩

/-- Claim C2: for every destination name, the local advisory matcher walks
the registry in insertion order and returns exactly the record of the first
entry whose lowercased key is a substring of the lowercased destination
name, as a singleton list; with no such entry it returns the empty list.
In particular the result has length 0 or 1. -/
theorem claim_C2 (name : String) :
    (∀ reg : List (String × HazardRecord),
      matchAdvisories reg name =
        match reg.find? (fun kv => strIn (pyLower kv.1) (pyLower name)) with
        | some kv => [kv.2]
        | none => [])
    ∧ fetch_local_advisories name = matchAdvisories MOCK_LOCAL_ADVISORIES name
    ∧ (fetch_local_advisories name).length ≤ 1 := by
  refine ⟨fun reg => matchAdvisories_eq_find reg name, rfl, ?_⟩
  show (matchAdvisories MOCK_LOCAL_ADVISORIES name).length ≤ 1
  rw [matchAdvisories_eq_find]
  cases MOCK_LOCAL_ADVISORIES.find? (fun kv => strIn (pyLower kv.1) (pyLower name)) <;> simp

/-- Claim C3: the disaster correlator's proximity threshold is strict:
if a feed entry's point is at distance at least 50 km (including exactly
50 km) from every route point, that entry contributes no hazard record. -/
theorem claim_C3 (route : List GeoPoint) (title : String) (lat lon : ℚ)
    (pre post : List FeedItem)
    (hfar : ∀ rp ∈ route, 50 ≤ haversine (rp.1 : ℝ) (rp.2 : ℝ) (lat : ℝ) (lon : ℝ)) :
    fetch_and_check_gdacs_alerts route
        (Except.ok (pre ++ { title := title, point := some (lat, lon) } :: post))
      = fetch_and_check_gdacs_alerts route (Except.ok (pre ++ post)) := by
  show processItems route (pre ++ _ :: post) = processItems route (pre ++ post)
  rw [processItems_append, processItems_append]
  have hscan : scanRoute lat lon title route = [] := by
    rw [scanRoute_eq, if_neg]
    rintro ⟨rp, hrp, hlt⟩
    exact absurd hlt (not_lt.mpr (hfar rp hrp))
  simp [processItems, hscan]

/-- Witness for C3: a route point on the equator and a feed entry at the
antipodal meridian (6371·π km away, far beyond 50 km) yields no hazard. -/
theorem claim_C3_witness :
    fetch_and_check_gdacs_alerts [((0 : ℚ), (0 : ℚ))]
      (Except.ok [{ title := "Cyclone XYZ", point := some ((0 : ℚ), (180 : ℚ)) }]) = [] := by
  have h := claim_C3 [((0 : ℚ), (0 : ℚ))] "Cyclone XYZ" 0 180 [] []
    (by
      intro rp hrp
      simp only [List.mem_singleton] at hrp
      subst hrp
      push_cast
      rw [haversine_antipodal]
      linarith [Real.pi_gt_three])
  simpa [fetch_and_check_gdacs_alerts, processItems] using h

/-- Claim C4: a weather lookup result is hazardous iff its primary
condition code lies in [200, 800); 199 and 800 yield nothing, while 200
and 799 yield one record whose details string is "Weather Alert: "
followed by the provider's description. -/
theorem claim_C4 (pt : GeoPoint) (i : Int) (desc : String)
    (rest : List WeatherCond) (nm : Option String) :
    (weatherPoint pt (Except.ok ⟨⟨i, desc⟩ :: rest, nm⟩) ≠ [] ↔ 200 ≤ i ∧ i < 800)
    ∧ weatherPoint pt (Except.ok ⟨⟨199, desc⟩ :: rest, nm⟩) = []
    ∧ weatherPoint pt (Except.ok ⟨⟨800, desc⟩ :: rest, nm⟩) = []
    ∧ weatherPoint pt (Except.ok ⟨⟨200, desc⟩ :: rest, nm⟩)
        = [{ coords := pt, details := "Weather Alert: " ++ desc,
             location_name := nm.getD "Along your route" }]
    ∧ weatherPoint pt (Except.ok ⟨⟨799, desc⟩ :: rest, nm⟩)
        = [{ coords := pt, details := "Weather Alert: " ++ desc,
             location_name := nm.getD "Along your route" }] := by
  refine ⟨?_, ?_, ?_, ?_, ?_⟩
  · by_cases h : 200 ≤ i ∧ i < 800 <;> simp [weatherPoint, h]
  · norm_num [weatherPoint]
  · norm_num [weatherPoint]
  · norm_num [weatherPoint]
  · norm_num [weatherPoint]

/-- Claim C5: the weather sampler evaluates exactly the route points at
indices 0, ⌊n/2⌋ and n−1 (in route order); for a 7-point route these are
indices 0, 3, 6, and for a single-point route all three collapse to it. -/
theorem claim_C5 (route : List GeoPoint) (h : route ≠ []) :
    points_to_check route
        = [route.head h,
           route.get ⟨route.length / 2, Nat.div_lt_self (List.length_pos.mpr h) one_lt_two⟩,
           route.getLast h]
    ∧ (points_to_check route).length = 3
    ∧ (∀ p : GeoPoint, points_to_check [p] = [p, p, p])
    ∧ (∀ a b c d e f g : GeoPoint, points_to_check [a, b, c, d, e, f, g] = [a, d, g]) := by
  refine ⟨?_, rfl, fun p => by simp [points_to_check], fun a b c d e f g => by simp [points_to_check]⟩
  unfold points_to_check
  have hpos : 0 < route.length := List.length_pos.mpr h
  rw [getD_eq_get route 0 (0, 0) hpos,
    getD_eq_get route (route.length / 2) (0, 0) (Nat.div_lt_self hpos one_lt_two),
    getD_eq_get route (route.length - 1) (0, 0) (by omega)]
  congr 1
  · cases route with
    | nil => exact absurd rfl h
    | cons a l => rfl
  · congr 1
    rw [List.getLast_eq_getElem]
    simp [List.get_eq_getElem]

/-- Witness for C5 at a concrete 3-point route: indices 0, 1, 2 sampled. -/
theorem claim_C5_witness :
    points_to_check [((0 : ℚ), (0 : ℚ)), ((1 : ℚ), (1 : ℚ)), ((2 : ℚ), (2 : ℚ))]
      = [((0 : ℚ), (0 : ℚ)), ((1 : ℚ), (1 : ℚ)), ((2 : ℚ), (2 : ℚ))] := by
  have h := (claim_C5 [((0 : ℚ), (0 : ℚ)), ((1 : ℚ), (1 : ℚ)), ((2 : ℚ), (2 : ℚ))]
    (by decide)).1
  exact h.trans (by decide)

/-- Claim C6: the distance primitive (haversine, Earth radius 6371 km)
vanishes on equal points, is symmetric, and is non-negative. -/
theorem claim_C6 :
    (∀ lat lon : ℝ, haversine lat lon lat lon = 0)
    ∧ (∀ lat1 lon1 lat2 lon2 : ℝ,
        haversine lat1 lon1 lat2 lon2 = haversine lat2 lon2 lat1 lon1)
    ∧ (∀ lat1 lon1 lat2 lon2 : ℝ, 0 ≤ haversine lat1 lon1 lat2 lon2) := by
  refine ⟨?_, ?_, ?_⟩
  · intro lat lon
    unfold haversine
    rw [haversA_self]
    norm_num [atan2_zero_one]
  · intro lat1 lon1 lat2 lon2
    unfold haversine
    rw [haversA_symm]
  · intro lat1 lon1 lat2 lon2
    unfold haversine
    have h := atan2_nonneg (Real.sqrt (haversA lat1 lon1 lat2 lon2))
      (Real.sqrt (1 - haversA lat1 lon1 lat2 lon2)) (Real.sqrt_nonneg _)
    linarith

/-- Claim C7: the disaster correlator coincides with its specification:
entries without a point are skipped; an entry with a point emits exactly
one record (coords = the point, details = the title, location
"Near your route") iff some route point lies strictly within 50 km, and
the output follows feed-entry order. -/
theorem claim_C7 (route : List GeoPoint) (entries : List FeedItem) :
    fetch_and_check_gdacs_alerts route (Except.ok entries)
      = correlateDisasterAlertsSpec route entries := by
  show processItems route entries = _
  induction entries with
  | nil => simp [processItems, correlateDisasterAlertsSpec]
  | cons e rest ih =>
    unfold processItems correlateDisasterAlertsSpec
    rw [List.flatMap_cons]
    unfold correlateDisasterAlertsSpec at ih
    rw [ih]
    congr 1
    rcases e with ⟨t, pt⟩
    cases pt with
    | none => rfl
    | some p =>
      rcases p with ⟨lat, lon⟩
      simpa using scanRoute_eq lat lon t route

/-- Claim C8: a failed feed download or parse yields the empty hazard list
from the disaster correlator, and the aggregated response still carries
the other sources' contributions. -/
theorem claim_C8 (route : List GeoPoint) (msg : String)
    (localH weatherH : List HazardRecord) :
    fetch_and_check_gdacs_alerts route (Except.error msg) = []
    ∧ aggregate localH (fetch_and_check_gdacs_alerts route (Except.error msg)) weatherH
        = localH ++ weatherH :=
  ⟨rfl, by simp [aggregate, fetch_and_check_gdacs_alerts]⟩

/-- Claim C9: with no API credential the weather sampler returns the empty
list without any lookup; a failed per-point lookup contributes nothing
while every other sampled point is still evaluated normally. -/
theorem claim_C9 :
    (∀ (lookup : GeoPoint → Except String WeatherData) (route : List GeoPoint),
      fetch_weather_alerts none lookup route = [])
    ∧ (∀ (pt : GeoPoint) (e : String), weatherPoint pt (Except.error e) = [])
    ∧ (∀ (k : String) (lookup : GeoPoint → Except String WeatherData)
        (route : List GeoPoint) (q : GeoPoint) (e : String), k ≠ "" →
        lookup q = Except.error e →
        fetch_weather_alerts (some k) lookup route =
          (points_to_check route).flatMap fun p =>
            if p = q then [] else weatherPoint p (lookup p)) := by
  refine ⟨fun _ _ => rfl, fun _ _ => rfl, ?_⟩
  intro k lookup route q e hk hq
  have hred : fetch_weather_alerts (some k) lookup route
      = if k = "" then []
        else (points_to_check route).flatMap fun pt => weatherPoint pt (lookup pt) := rfl
  rw [hred, if_neg hk]
  have hfun : (fun p => weatherPoint p (lookup p))
      = fun p => if p = q then [] else weatherPoint p (lookup p) := by
    funext p
    by_cases hpq : p = q
    · subst hpq
      rw [if_pos rfl, hq]
      rfl
    · rw [if_neg hpq]
  rw [hfun]

/-- Witness for C9: a lookup that always times out yields the empty
hazard list, with the failing sampled point contributing nothing. -/
theorem claim_C9_witness :
    fetch_weather_alerts (some "KEY") (fun _ => Except.error "timeout") [((0 : ℚ), (0 : ℚ))]
      = (points_to_check [((0 : ℚ), (0 : ℚ))]).flatMap
          (fun p => if p = ((0 : ℚ), (0 : ℚ)) then []
            else weatherPoint p ((fun _ => Except.error "timeout") p)) :=
  claim_C9.2.2 "KEY" (fun _ => Except.error "timeout") [((0 : ℚ), (0 : ℚ))]
    ((0 : ℚ), (0 : ℚ)) "timeout" (by decide) rfl

/-- Claim C10: the imagery selector returns the VIIRS thermal-anomalies
template iff a hazard details string was supplied containing "fire" or
"wildfire" case-insensitively; in every other case (no hazards, or details
without those substrings) it returns the MODIS TrueColor template, and the
endpoint applies it to the first aggregated hazard's details (or to none). -/
theorem claim_C10 (d : String) (hz : Option String) :
    (get_satellite_url d hz = viirs_url d ↔
      ∃ s, hz = some s ∧
        (strIn "fire" (pyLower s) || strIn "wildfire" (pyLower s)) = true)
    ∧ (get_satellite_url d hz = viirs_url d ∨ get_satellite_url d hz = modis_url d)
    ∧ viirs_url d ≠ modis_url d
    ∧ (∀ hs : List HazardRecord,
        selectSatelliteUrl d hs = get_satellite_url d (hs.head?.map HazardRecord.details)) := by
  refine ⟨?_, ?_, viirs_ne_modis d, fun hs => rfl⟩ <;>
  cases hz with
  | none =>
    first
    | exact Or.inr rfl
    | constructor
      · intro h
        exact absurd h.symm (viirs_ne_modis d)
      · rintro ⟨s, hs, _⟩
        cases hs
  | some s =>
    by_cases hs0 : s = ""
    · subst hs0
      first
      | exact Or.inr rfl
      | constructor
        · intro h
          exact absurd h.symm (viirs_ne_modis d)
        · rintro ⟨t, ht, hor⟩
          obtain rfl : t = "" := by injection ht.symm
          exact absurd hor (by decide)
    · cases hb : (strIn "fire" (pyLower s) || strIn "wildfire" (pyLower s)) with
      | true =>
        have hval : get_satellite_url d (some s) = viirs_url d := by
          unfold get_satellite_url
          rw [if_pos]
          simp [hs0, hb]
        first
        | exact Or.inl hval
        | exact ⟨fun _ => ⟨s, rfl, hb⟩, fun _ => hval⟩
      | false =>
        have hval : get_satellite_url d (some s) = modis_url d := by
          unfold get_satellite_url
          rw [if_neg]
          simp [hb]
        first
        | exact Or.inr hval
        | refine ⟨fun h => absurd (hval.symm.trans h).symm (viirs_ne_modis d), ?_⟩
          rintro ⟨t, ht, hor⟩
          obtain rfl : t = s := by injection ht.symm
          rw [hb] at hor
          cases hor
